import Mathlib

/-!
Verification of the Energy-Visualizer repository's aggregation behaviour.

The repository contains three backend variants of the `/api/data` energy
endpoint and a React client:
* a MySQL counter-delta variant (`electricity-backend/server.js`, first file):
  per (period, mac) groups, energy delta = last reading energy − first reading
  energy, summed per bucket with a CASE splitting supply vs consumption;
* a MySQL power-average variant (`electricity-backend/server.js`, second file):
  per bucket AVG(power), with an extra `week` period and a silent fallback to
  hourly grouping for unknown periods, plus an `/api/summary` interval-quality
  analysis;
* an Elasticsearch counter-delta variant (`unnamed/part_000`): date-histogram
  buckets, per-mac first/last energy, room filtering via a MAC terms filter,
  and `Math.max(0, ...toFixed(3))` clamping of each bucket total;
* the client (`unnamed/part_002`) which zero-fills missing buckets for the
  day/month/year periods (but not hour) by matching on formatted labels.

JavaScript floating-point numbers are embedded as exact rationals (ℚ);
timestamps are embedded as calendar structures with minute precision.
-/

namespace EV

/-- A calendar timestamp with minute precision (the SQL `log_datetime` /
ES `log_datetime` field, to the precision the claims need). -/
structure Timestamp where
  year : Nat
  month : Nat
  day : Nat
  hour : Nat
  minute : Nat
deriving DecidableEq, Repr

/-- A sort key that is strictly monotone in calendar order for valid
timestamps (month 1–12, day 1–31); used for MIN/MAX `log_datetime` and the
ES `top_hits` sort. -/
def Timestamp.key (t : Timestamp) : Nat :=
  (((t.year * 12 + t.month) * 31 + t.day) * 24 + t.hour) * 60 + t.minute

/-- A row of the `PZEM` table / `pzem_idx` index: meter MAC address,
timestamp, cumulative energy counter (Wh) and instantaneous power (W). -/
structure Reading where
  mac : String
  time : Timestamp
  energy : ℚ
  power : ℚ
deriving DecidableEq, Repr

/-- A row of the `meters` table / `meters_idx` index: MAC address and
(optional) room assignment. -/
structure Meter where
  mac : String
  room : Option String
deriving DecidableEq, Repr

/-- A calendar date (the `date` query parameter, already validated). -/
structure Date where
  year : Nat
  month : Nat
  day : Nat
deriving DecidableEq, Repr

/-- MySQL-variant MAC normalization: `UPPER(REPLACE(mac, ':', ''))`. -/
def normalizeUpper (s : String) : String :=
  String.mk ((s.toList.filter (fun c => c != ':')).map Char.toUpper)

/-- ES-variant MAC normalization (`normalizeMacAddress`): lowercase, colons
kept. -/
def normalizeLower (s : String) : String :=
  String.mk (s.toList.map Char.toLower)

/-- `SUPPLY_MAC_NORMALIZED` of the MySQL counter-delta variant. -/
def supplyMacMysql : String := "08F9E07364DB"

/-- `SUPPLY_MAC_NORMALIZED` of the ES variant (lowercase, with colons). -/
def supplyMacEs : String := "08:f9:e0:73:64:db"

/-- The raw supply MAC literal compared against `p.mac_address` in the
power-average variant. -/
def supplyMacRaw : String := "08:F9:E0:73:64:DB"

/-- Insert into an ascending list (used to model `ORDER BY ... ASC` /
the chronological order of ES date-histogram buckets). -/
def insertSorted (n : Nat) : List Nat → List Nat
  | [] => [n]
  | m :: ms => if n ≤ m then n :: m :: ms else m :: insertSorted n ms

/-- Sort a list of numbers ascending. -/
def sortAsc (l : List Nat) : List Nat :=
  l.foldr insertSorted []

/-- Distinct values of a list (`GROUP BY` / the ES terms and date-histogram
aggregations); of duplicated values the last occurrence is kept. -/
def dedupBy {α : Type} [BEq α] : List α → List α
  | [] => []
  | a :: t => if (dedupBy t).contains a then dedupBy t else a :: dedupBy t

/-- The reading with the minimal `log_datetime` (SQL `MIN` joined back to its
row; ES `top_hits` sorted ascending, size 1). -/
def firstReading (rs : List Reading) : Option Reading :=
  rs.foldl
    (fun acc r =>
      match acc with
      | none => some r
      | some b => if r.time.key < b.time.key then some r else some b)
    none

/-- The reading with the maximal `log_datetime` (SQL `MAX` joined back;
ES `top_hits` sorted descending, size 1). -/
def lastReading (rs : List Reading) : Option Reading :=
  rs.foldl
    (fun acc r =>
      match acc with
      | none => some r
      | some b => if b.time.key < r.time.key then some r else some b)
    none

/-- Counter-delta of one meter inside one bucket's readings:
`last_energy - first_energy` (`PeriodEnergyDeltas` CTE; ES `energyDelta`).
Groups are nonempty in both sources; an empty group yields 0. -/
def macDelta (rs : List Reading) (mac : String) : ℚ :=
  match firstReading (rs.filter (fun r => r.mac == mac)),
        lastReading (rs.filter (fun r => r.mac == mac)) with
  | some f, some l => l.energy - f.energy
  | _, _ => 0

/-- The period the `/api/data` endpoints recognise. -/
inductive PeriodKind
  | hour
  | day
  | month
  | year
deriving DecidableEq, Repr

/-- The `period` query-string value for each kind. -/
def periodString : PeriodKind → String
  | .hour => "hour"
  | .day => "day"
  | .month => "month"
  | .year => "year"

/-- The counter-delta variant's `switch (period)`: the four recognised
values; anything else falls to `default:` (a 400 error). -/
def parsePeriod (p : String) : Option PeriodKind :=
  if p = "hour" then some .hour
  else if p = "day" then some .day
  else if p = "month" then some .month
  else if p = "year" then some .year
  else none

/-- The `GROUP BY` key of the counter-delta SQL: `HOUR` / `DAY` / `MONTH` /
`YEAR` of `log_datetime` (also the ES date-histogram bucket key, within the
range restricted by `buildDateRangeQuery`). -/
def groupKey : PeriodKind → Timestamp → Nat
  | .hour, t => t.hour
  | .day, t => t.day
  | .month, t => t.month
  | .year, t => t.year

/-- The counter-delta variant's `dateFilter` WHERE clause. -/
def dateFilter : PeriodKind → Date → Timestamp → Bool
  | .hour, d, t => t.year == d.year && t.month == d.month && t.day == d.day
  | .day, d, t => t.year == d.year && t.month == d.month
  | .month, d, t => t.year == d.year
  | .year, _, _ => true

/-- Readings passing the counter-delta variant's date filter. -/
def filteredReadings (k : PeriodKind) (d : Date) (readings : List Reading) :
    List Reading :=
  readings.filter (fun r => dateFilter k d r.time)

/-- The readings of one bucket (one `period_value` group). -/
def bucketReadings (k : PeriodKind) (d : Date) (readings : List Reading)
    (v : Nat) : List Reading :=
  (filteredReadings k d readings).filter (fun r => groupKey k r.time == v)

/-- The distinct MACs appearing in a bucket (SQL `GROUP BY ..., mac_address`;
ES `by_mac` terms aggregation). -/
def bucketMacs (rs : List Reading) : List String :=
  dedupBy (rs.map Reading.mac)

/-- The ascending list of `period_value`s that actually occur in the data
(SQL emits one output row per such group, `ORDER BY period_value ASC`;
the ES date histogram emits one bucket per occupied calendar interval). -/
def occupiedKeys (k : PeriodKind) (rs : List Reading) : List Nat :=
  sortAsc (dedupBy (rs.map (fun r => groupKey k r.time)))

/-- The MySQL variant's `LEFT JOIN meters ON UPPER(REPLACE(..)) =
UPPER(REPLACE(..))` followed by reading `m.room_id`. -/
def mysqlRoomOf (meters : List Meter) (mac : String) : Option String :=
  (meters.find? (fun m => normalizeUpper m.mac == normalizeUpper mac)).bind
    Meter.room

/-- One summand of `consumption_energy_wh` in the counter-delta SQL:
`CASE WHEN <supply mac> THEN 0 [WHEN m.room_id = ? THEN delta ELSE 0 |
ELSE delta] END`. -/
def consCase (meters : List Meter) (room : Option String) (rs : List Reading)
    (mac : String) : ℚ :=
  if normalizeUpper mac = supplyMacMysql then 0
  else
    match room with
    | some r => if mysqlRoomOf meters mac = some r then macDelta rs mac else 0
    | none => macDelta rs mac

/-- `consumption_energy_wh` of one bucket: sum of the CASE over the bucket's
per-mac deltas. -/
def mysqlConsOf (meters : List Meter) (room : Option String)
    (rs : List Reading) : ℚ :=
  (bucketMacs rs).foldl (fun acc mac => acc + consCase meters room rs mac) 0

/-- `supply_energy_wh` of one bucket: `CASE WHEN <supply mac> THEN delta
ELSE 0 END`, summed. -/
def mysqlSupplyOf (rs : List Reading) : ℚ :=
  (bucketMacs rs).foldl
    (fun acc mac =>
      acc + if normalizeUpper mac = supplyMacMysql then macDelta rs mac else 0)
    0

/-- The `DATE_FORMAT(MIN(log_datetime), ...)` timestamp of an output row,
truncated to the period as the SQL format strings do. -/
def bucketTs : PeriodKind → Date → Nat → Timestamp
  | .hour, d, v => ⟨d.year, d.month, d.day, v, 0⟩
  | .day, d, v => ⟨d.year, d.month, v, 0, 0⟩
  | .month, d, v => ⟨d.year, v, 1, 0, 0⟩
  | .year, _, v => ⟨v, 1, 1, 0, 0⟩

/-- An output row of the counter-delta `/api/data` SQL. -/
structure MysqlRow where
  periodValue : Nat
  ts : Timestamp
  consumption : ℚ
  supply : ℚ
deriving DecidableEq, Repr

/-- The counter-delta variant's `/api/data` result set: one row per occupied
`period_value`, ascending, with the supply/consumption CASE sums. -/
def mysqlData (meters : List Meter) (room : Option String) (k : PeriodKind)
    (d : Date) (readings : List Reading) : List MysqlRow :=
  (occupiedKeys k (filteredReadings k d readings)).map
    (fun v =>
      ⟨v, bucketTs k d v,
        mysqlConsOf meters room (bucketReadings k d readings v),
        mysqlSupplyOf (bucketReadings k d readings v)⟩)

/-- The counter-delta endpoint including its `period` validation:
`default:` returns a 400 `"Invalid period specified."`. -/
def mysqlApiData (p : String) (meters : List Meter) (room : Option String)
    (d : Date) (readings : List Reading) : Except String (List MysqlRow) :=
  match parsePeriod p with
  | none => .error "Invalid period specified."
  | some k => .ok (mysqlData meters room k d readings)

/-! ### Elasticsearch counter-delta variant (`unnamed/part_000`) -/

/-- JavaScript `Math.round` on a rational: round half toward +∞. -/
def jsRound (q : ℚ) : ℤ :=
  Int.floor (q + 1 / 2)

/-- `parseFloat(x.toFixed(3))`: round to 3 decimal places (ECMAScript
`toFixed` picks the larger candidate on ties, i.e. rounds half up). -/
def round3 (q : ℚ) : ℚ :=
  (jsRound (q * 1000) : ℚ) / 1000

/-- `Math.max(0, parseFloat(x.toFixed(3)))` applied to each ES bucket total. -/
def esClamp (q : ℚ) : ℚ :=
  max 0 (round3 q)

/-- The ES `macToRoomMap`: entries of `meters_idx` that carry both a MAC and
a room, keyed by the lowercased MAC; looked up with the lowercased query MAC. -/
def esRoomOf (meters : List Meter) (mac : String) : Option String :=
  ((meters.filterMap (fun m => m.room.map (fun r => (normalizeLower m.mac, r)))).find?
      (fun e => e.1 == normalizeLower mac)).map Prod.snd

/-- `macsForRoom`: the (normalized) MACs whose directory entry maps to the
requested room. -/
def macsForRoom (meters : List Meter) (room : String) : List String :=
  ((meters.filterMap (fun m => m.room.map (fun r => (normalizeLower m.mac, r)))).filter
      (fun e => e.2 == room)).map Prod.fst

/-- `buildDateRangeQuery`: the ES range filter per period (day containing the
date, its month, its year, or from 2020 onwards; the year upper bound is the
wall-clock end of the current year and is not modelled). -/
def esRangeFilter : PeriodKind → Date → Timestamp → Bool
  | .hour, d, t => t.year == d.year && t.month == d.month && t.day == d.day
  | .day, d, t => t.year == d.year && t.month == d.month
  | .month, d, t => t.year == d.year
  | .year, _, t => 2020 ≤ t.year

/-- The `period` field of an ES output row:
`dayjs(timestamp).get("hour" | "date" | "month" | "year")`; dayjs months are
0-based, so the month ordinal is `month − 1`. -/
def esOrdinal : PeriodKind → Nat → Nat
  | .month, v => v - 1
  | _, v => v

/-- One summand of `consumptionEnergy` in the ES per-bucket loop. -/
def esConsCase (meters : List Meter) (room : Option String) (rs : List Reading)
    (mac : String) : ℚ :=
  if normalizeLower mac = supplyMacEs then 0
  else
    match room with
    | some r => if esRoomOf meters mac = some r then macDelta rs mac else 0
    | none => macDelta rs mac

/-- `consumptionEnergy` accumulated over the bucket's `by_mac` buckets. -/
def esConsSum (meters : List Meter) (room : Option String) (rs : List Reading) :
    ℚ :=
  (bucketMacs rs).foldl (fun acc mac => acc + esConsCase meters room rs mac) 0

/-- `supplyEnergy` accumulated over the bucket's `by_mac` buckets. -/
def esSupplySum (rs : List Reading) : ℚ :=
  (bucketMacs rs).foldl
    (fun acc mac =>
      acc + if normalizeLower mac = supplyMacEs then macDelta rs mac else 0)
    0

/-- An entry of the ES variant's transformed `data` array. -/
structure EsRow where
  ordinal : Nat
  consumption : ℚ
  supply : ℚ
deriving DecidableEq, Repr

/-- The ES date-histogram pass: one row per occupied calendar bucket (in
chronological order, which the final `sort` by period value preserves), with
both totals clamped by `Math.max(0, ...toFixed(3))`. -/
def esBuckets (meters : List Meter) (room : Option String) (k : PeriodKind)
    (rs : List Reading) : List EsRow :=
  (occupiedKeys k rs).map
    (fun v =>
      let g := rs.filter (fun r => groupKey k r.time == v)
      ⟨esOrdinal k v, esClamp (esConsSum meters room g), esClamp (esSupplySum g)⟩)

/-- The ES `/api/data` endpoint: range filter, then — when a room is given —
either the early `data: []` return (no MACs for the room) or a
`mac_address.keyword` terms filter restricted to the room's MACs. -/
def esData (meters : List Meter) (room : Option String) (k : PeriodKind)
    (d : Date) (readings : List Reading) : List EsRow :=
  match room with
  | none => esBuckets meters none k (readings.filter (fun r => esRangeFilter k d r.time))
  | some r =>
      if (macsForRoom meters r).isEmpty then []
      else
        esBuckets meters (some r) k
          ((readings.filter (fun r => esRangeFilter k d r.time)).filter
            (fun rd => (macsForRoom meters r).contains rd.mac))

/-! ### Power-average variant (`electricity-backend/server.js`, second file) -/

/-- Days in a calendar month (Gregorian). -/
def isLeapYear (y : Nat) : Bool :=
  (y % 4 == 0 && y % 100 != 0) || y % 400 == 0

/-- Number of days of month `m` of year `y`. -/
def daysInMonth (y m : Nat) : Nat :=
  if m = 2 then (if isLeapYear y then 29 else 28)
  else if m = 4 ∨ m = 6 ∨ m = 9 ∨ m = 11 then 30
  else 31

/-- Days in the months of year `y` strictly before month `m`. -/
def daysBeforeMonth (y m : Nat) : Nat :=
  ((List.range (m - 1)).map (fun i => daysInMonth y (i + 1))).sum

/-- 1-based day of year. -/
def dayOfYear (t : Timestamp) : Nat :=
  daysBeforeMonth t.year t.month + t.day

/-- Days in the proleptic Gregorian years strictly before year `y`
(year 0 counted as leap). -/
def daysBeforeYear (y : Nat) : Nat :=
  365 * y + (y + 3) / 4 - (y + 99) / 100 + (y + 399) / 400

/-- Weekday with Monday = 0 (anchored at 2024-01-01, a Monday). -/
def weekdayMon0 (t : Timestamp) : Nat :=
  (daysBeforeYear t.year + dayOfYear t - 1 + 5) % 7

/-- MySQL `WEEK(d, 1)`: weeks start Monday; week 1 is the first week with at
least 4 days in the year, earlier days land in week 0. -/
def mysqlWeek1 (t : Timestamp) : Nat :=
  let w := weekdayMon0 ⟨t.year, 1, 1, 0, 0⟩
  (dayOfYear t - 1 + w) / 7 + (if w ≤ 3 then 1 else 0)

/-- The power-average variant's `switch (period)` date filter: `week` uses
the month of `startOf("month")` (the same month), and the `default:` branch
repeats the `hour` case. -/
def powerAvgDateFilter (p : String) (d : Date) (t : Timestamp) : Bool :=
  if p = "day" then t.month == d.month && t.year == d.year
  else if p = "week" then t.month == d.month && t.year == d.year
  else if p = "month" then t.year == d.year
  else t.year == d.year && t.month == d.month && t.day == d.day

/-- The power-average variant's `GROUP BY` key: note the extra `week` case
and the silent fallback to hourly grouping in `default:`. -/
def powerAvgKey (p : String) (t : Timestamp) : Nat :=
  if p = "day" then t.day
  else if p = "week" then mysqlWeek1 t
  else if p = "month" then t.month
  else t.hour

/-- `COALESCE(AVG(...), 0)`: the average of the non-NULL values, 0 when there
are none. -/
def avgOrZero (l : List ℚ) : ℚ :=
  if l.length = 0 then 0 else l.sum / (l.length : ℚ)

/-- An output row of the power-average `/api/data` variant (`supply_power` is
`NULL` — `none` — whenever a room filter is set). -/
structure AvgRow where
  periodValue : Nat
  supply : Option ℚ
  consumption : ℚ
  totalRecords : Nat
deriving DecidableEq, Repr

/-- The readings entering the power-average query: date filter plus, when a
room is given, the `INNER JOIN meters ... AND m.room_id = ?` on the raw MAC. -/
def powerAvgFiltered (p : String) (room : Option String) (meters : List Meter)
    (d : Date) (readings : List Reading) : List Reading :=
  let rs := readings.filter (fun r => powerAvgDateFilter p d r.time)
  match room with
  | none => rs
  | some r =>
      rs.filter (fun rd =>
        meters.any (fun m => m.mac == rd.mac && m.room == some r))

/-- The power-average `/api/data` result set: per occupied group,
`AVG(power)` of the supply MAC (NULL when a room is set) and of the other
MACs, compared on the raw `mac_address`. There is no invalid-period branch:
every period string produces a result. -/
def powerAvgData (p : String) (room : Option String) (meters : List Meter)
    (d : Date) (readings : List Reading) : List AvgRow :=
  let rs := powerAvgFiltered p room meters d readings
  (sortAsc (dedupBy (rs.map (fun r => powerAvgKey p r.time)))).map
    (fun v =>
      let g := rs.filter (fun r => powerAvgKey p r.time == v)
      ⟨v,
        (if room = none then
          some (avgOrZero ((g.filter (fun r => r.mac == supplyMacRaw)).map Reading.power))
        else none),
        avgOrZero ((g.filter (fun r => r.mac != supplyMacRaw)).map Reading.power),
        g.length⟩)

/-! ### `/api/summary` interval analysis and data quality -/

/-- Consecutive differences of an ascending list (the `LAG` window per MAC;
only rows with a non-NULL previous timestamp yield an interval). -/
def diffs : List Nat → List Nat
  | a :: b :: rest => (b - a) :: diffs (b :: rest)
  | _ => []

/-- All inter-reading intervals in seconds, per MAC, over the analysed
reading set (the source restricts the set to the trailing 24 hours by wall
clock; the analysed set is the model's input). -/
def intervalSeconds (readings : List Reading) : List Nat :=
  (dedupBy (readings.map Reading.mac)).flatMap
    (fun mac =>
      diffs (sortAsc ((readings.filter (fun r => r.mac == mac)).map
        (fun r => r.time.key * 60))))

/-- The interval statistics of `/api/summary`. -/
structure IntervalStats where
  total : Nat
  valid : Nat
  largeGaps : Nat
deriving DecidableEq, Repr

/-- `total_intervals`, `valid_intervals` (`interval_seconds <= 3600`) and
`large_gaps` (`interval_seconds > 3600`). -/
def summaryStats (readings : List Reading) : IntervalStats :=
  let l := intervalSeconds readings
  ⟨l.length, (l.filter (fun s => s ≤ 3600)).length,
    (l.filter (fun s => 3600 < s)).length⟩

/-- `dataQualityPercent`: `total_intervals > 0 ?
Math.round((valid_intervals / total_intervals) * 100) : 0`. -/
def dataQualityPercent (s : IntervalStats) : ℤ :=
  if 0 < s.total then jsRound ((s.valid : ℚ) / (s.total : ℚ) * 100) else 0

/-! ### Client-side bucket filling (`unnamed/part_002`) -/

/-- English month abbreviations (dayjs `"MMM"`). -/
def monthAbbrev : Nat → String
  | 1 => "Jan" | 2 => "Feb" | 3 => "Mar" | 4 => "Apr" | 5 => "May" | 6 => "Jun"
  | 7 => "Jul" | 8 => "Aug" | 9 => "Sep" | 10 => "Oct" | 11 => "Nov"
  | 12 => "Dec"
  | _ => ""

/-- English month names (dayjs `"MMMM"`). -/
def monthFull : Nat → String
  | 1 => "January" | 2 => "February" | 3 => "March" | 4 => "April"
  | 5 => "May" | 6 => "June" | 7 => "July" | 8 => "August" | 9 => "September"
  | 10 => "October" | 11 => "November" | 12 => "December"
  | _ => ""

/-- Two-digit zero padding (`padStart(2, "0")`, dayjs `"DD"`). -/
def pad2 (n : Nat) : String :=
  if n < 10 then "0" ++ toString n else toString n

/-- An entry of the client's chart data. -/
structure ClientRow where
  label : String
  ordinal : Nat
  consumption : ℚ
  supply : ℚ
deriving DecidableEq, Repr

/-- The client's `mappedData` transformation of one server row: the label is
re-derived from the period ordinal (hour) or the row timestamp (dayjs
formats). -/
def toClientRow (p : String) (row : MysqlRow) : ClientRow :=
  ⟨(if p = "hour" then pad2 row.periodValue ++ ":00"
    else if p = "day" then monthAbbrev row.ts.month ++ " " ++ pad2 row.ts.day
    else if p = "month" then monthFull row.ts.month
    else toString row.ts.year),
    row.periodValue, row.consumption, row.supply⟩

/-- `generateAllPeriods`: the client's full bucket list — days of the selected
month, the 12 months (0-based ordinals), or the years from 2023 through the
selected year. Nothing is generated for `hour`. -/
def generateAllPeriods (p : String) (d : Date) : List ClientRow :=
  if p = "day" then
    (List.range (daysInMonth d.year d.month)).map
      (fun i => ⟨monthAbbrev d.month ++ " " ++ pad2 (i + 1), i + 1, 0, 0⟩)
  else if p = "month" then
    (List.range 12).map (fun i => ⟨monthFull (i + 1), i, 0, 0⟩)
  else if p = "year" then
    (List.range (d.year + 1 - 2023)).map
      (fun i => ⟨toString (2023 + i), 2023 + i, 0, 0⟩)
  else []

/-- `filledData`: for day/month/year, one entry per generated bucket, the
server row with the matching label when present and a zero row otherwise;
the hour period is passed through unchanged. -/
def filledData (p : String) (d : Date) (mapped : List ClientRow) :
    List ClientRow :=
  if p = "day" ∨ p = "month" ∨ p = "year" then
    (generateAllPeriods p d).map
      (fun g =>
        match mapped.find? (fun r => r.label == g.label) with
        | some found => found
        | none => g)
  else mapped

/-- The composed server-plus-client pipeline of the counter-delta variant:
`none` models an error surfaced to the user (invalid period, or the client's
error state when the server returns an empty `data` array). -/
def fullPipeline (p : String) (meters : List Meter) (room : Option String)
    (d : Date) (readings : List Reading) : Option (List ClientRow) :=
  match parsePeriod p with
  | none => none
  | some k =>
      let api := (mysqlData meters room k d readings).map (toClientRow p)
      if api.isEmpty then none else some (filledData p d api)

/-- Modelled from the spec: the Bucket Planner's bucket count — the
repository has no planner component; the spec plans 24 hour buckets,
days-in-month day buckets, 12 month buckets, and one bucket per year from the
epoch (2023, the client's `startYear`) through the reference year. -/
def plannedBucketCount : PeriodKind → Date → Nat
  | .hour, _ => 24
  | .day, d => daysInMonth d.year d.month
  | .month, _ => 12
  | .year, d => d.year + 1 - 2023

/-! ### Concrete query inputs used by the claim theorems -/

/-- A fixed reference date. -/
def dEx : Date := ⟨2025, 6, 4⟩

/-- A timestamp on the reference date. -/
def tEx (h m : Nat) : Timestamp := ⟨2025, 6, 4, h, m⟩

/-- One consumption meter reporting 100 Wh at 00:00 and 160 Wh at 01:00. -/
def readingsAcrossHours : List Reading :=
  [⟨"aa:bb", tEx 0 0, 100, 0⟩, ⟨"aa:bb", tEx 1 0, 160, 0⟩]

/-- One consumption meter reporting 100 Wh at 00:00 and 160 Wh at 00:30. -/
def readingsInHour0 : List Reading :=
  [⟨"aa:bb", tEx 0 0, 100, 0⟩, ⟨"aa:bb", tEx 0 30, 160, 0⟩]

/-- One consumption meter whose counter resets inside hour 0
(100 Wh, then 40 Wh). -/
def readingsReset : List Reading :=
  [⟨"aa:bb", tEx 0 0, 100, 0⟩, ⟨"aa:bb", tEx 0 30, 40, 0⟩]

/-- A directory mapping one consumption meter to room 1. -/
def metersRoom1 : List Meter := [⟨"aa:bb", some "1"⟩]

/-- The supply meter plus a room-1 consumption meter, both reporting within
hour 0 (supply delta 50 Wh, consumption delta 20 Wh). -/
def readingsSupplyAndRoom : List Reading :=
  [⟨"08:f9:e0:73:64:db", tEx 0 0, 0, 0⟩,
   ⟨"08:f9:e0:73:64:db", tEx 0 30, 50, 0⟩,
   ⟨"aa:bb", tEx 0 0, 10, 0⟩, ⟨"aa:bb", tEx 0 30, 30, 0⟩]

/-- A directory that maps the supply meter itself to room 1. -/
def metersSupplyInRoom1 : List Meter := [⟨"08:F9:E0:73:64:DB", some "1"⟩]

/-- Supply-meter readings with delta 50 Wh inside hour 0. -/
def readingsSupplyOnly : List Reading :=
  [⟨"08:f9:e0:73:64:db", tEx 0 0, 0, 0⟩,
   ⟨"08:f9:e0:73:64:db", tEx 0 30, 50, 0⟩]

/-- One meter with two power readings 2 hours apart (100 W, then 140 W). -/
def readingsGapped : List Reading :=
  [⟨"aa:bb", tEx 0 0, 0, 100⟩, ⟨"aa:bb", tEx 2 0, 0, 140⟩]

/-- Two meters in one bucket: one with delta +100 Wh, one with a counter
reset giving delta −60 Wh. -/
def readingsCancelling : List Reading :=
  [⟨"aa:bb", tEx 0 0, 0, 0⟩, ⟨"aa:bb", tEx 0 30, 100, 0⟩,
   ⟨"cc:dd", tEx 0 0, 100, 0⟩, ⟨"cc:dd", tEx 0 30, 40, 0⟩]

/-- Following C5's words verbatim: the sum of the bucket's per-meter deltas
over exactly the meters whose directory entry maps them to the filtered
room (with no exclusion of the supply meter). -/
def roomMappedSum (meters : List Meter) (r : String) (rs : List Reading) : ℚ :=
  ((bucketMacs rs).map
    (fun mac => if mysqlRoomOf meters mac = some r then macDelta rs mac else 0)).sum

/-- The amended C5 reading: the sum of the bucket's per-meter deltas over
the non-supply meters whose directory entry maps them to the filtered room. -/
def nonSupplyRoomSum (meters : List Meter) (r : String) (rs : List Reading) :
    ℚ :=
  ((bucketMacs rs).map
    (fun mac =>
      if normalizeUpper mac ≠ supplyMacMysql ∧ mysqlRoomOf meters mac = some r
      then macDelta rs mac else 0)).sum

/-! ### Helper lemmas -/

/-- Folding `+ f x` from `c` is `c` plus the sum of the images. -/
theorem foldl_add_eq_sum {α : Type} (f : α → ℚ) :
    ∀ (l : List α) (c : ℚ),
      l.foldl (fun acc x => acc + f x) c = c + (l.map f).sum := by
  intro l
  induction l with
  | nil => intro c; simp
  | cons a t ih => intro c; simp [ih, add_assoc]

/-- A sum of guarded summands is the sum over the sublist passing the guard. -/
theorem sum_map_ite_eq_filter {α : Type} (p : α → Bool) (f : α → ℚ) :
    ∀ l : List α,
      (l.map (fun x => if p x then f x else 0)).sum
        = ((l.filter p).map f).sum := by
  intro l
  induction l with
  | nil => simp
  | cons a t ih =>
      by_cases h : p a <;> simp [h, ih]

/-- `jsRound` is monotone (it is a floor of a shifted argument). -/
theorem jsRound_mono {q q' : ℚ} (h : q ≤ q') : jsRound q ≤ jsRound q' :=
  Int.floor_le_floor (by linarith)

/-- `jsRound` of a non-positive number is non-positive. -/
theorem jsRound_nonpos {q : ℚ} (h : q ≤ 0) : jsRound q ≤ 0 := by
  have h2 : jsRound q ≤ jsRound 0 := jsRound_mono h
  have h0 : jsRound (0 : ℚ) = 0 := by
    unfold jsRound
    norm_num [Int.floor_eq_iff]
  omega

/-- The ES clamp of a non-positive bucket total is 0. -/
theorem esClamp_nonpos {q : ℚ} (h : q ≤ 0) : esClamp q = 0 := by
  have hm : jsRound (q * 1000) ≤ 0 :=
    jsRound_nonpos (by nlinarith)
  have hr : round3 q ≤ 0 := by
    unfold round3
    have : ((jsRound (q * 1000) : ℤ) : ℚ) ≤ 0 := by exact_mod_cast hm
    linarith
  unfold esClamp
  exact max_eq_left hr

/-- Every ES clamp is non-negative. -/
theorem esClamp_nonneg (q : ℚ) : 0 ≤ esClamp q :=
  le_max_left 0 (round3 q)

/-- Every ES clamp is an integral multiple of 1/1000 (three decimals). -/
theorem esClamp_thousandth (q : ℚ) : ∃ n : ℤ, esClamp q = (n : ℚ) / 1000 := by
  refine ⟨max 0 (jsRound (q * 1000)), ?_⟩
  unfold esClamp round3
  rcases le_or_lt (jsRound (q * 1000)) 0 with h | h
  · have h1 : ((jsRound (q * 1000) : ℤ) : ℚ) / 1000 ≤ 0 := by
      have : ((jsRound (q * 1000) : ℤ) : ℚ) ≤ 0 := by exact_mod_cast h
      linarith
    rw [max_eq_left h1, max_eq_left h]
    norm_num
  · have h1 : (0 : ℚ) ≤ ((jsRound (q * 1000) : ℤ) : ℚ) / 1000 := by
      have : (0 : ℚ) ≤ ((jsRound (q * 1000) : ℤ) : ℚ) := by exact_mod_cast h.le
      linarith
    rw [max_eq_right h1, max_eq_right h.le]

/-! ### Claim theorems -/

/-- C1, counterexample: for `period=hour` nothing fills missing buckets —
neither the SQL (which groups over existing readings only) nor the client
(which fills only day/month/year) — so a day with readings in a single hour
yields 1 output bucket, not the 24 planned ones. -/
theorem c1_counterexample :
    fullPipeline "hour" [] none dEx [⟨"aa:bb", tEx 5 0, 100, 0⟩]
        = some [⟨"05:00", 5, 0, 0⟩]
      ∧ plannedBucketCount .hour dEx = 24
      ∧ [(⟨"05:00", 5, 0, 0⟩ : ClientRow)].length ≠ 24 := by
  refine ⟨?_, by decide, by decide⟩
  simp +decide [fullPipeline, parsePeriod, mysqlData, occupiedKeys,
    filteredReadings, bucketReadings, dateFilter, groupKey, sortAsc,
    insertSorted, dedupBy, bucketMacs, mysqlConsOf, mysqlSupplyOf, consCase,
    macDelta, firstReading, lastReading, mysqlRoomOf, normalizeUpper,
    supplyMacMysql, Timestamp.key, bucketTs, dEx, tEx, toClientRow,
    filledData, generateAllPeriods, pad2]

/-- C2, counterexample: in the ES variant the room filter restricts the
query to the room's MACs, which excludes the supply meter, so `supply`
drops from 50 (no filter) to 0 (room filter) on the same data. -/
theorem c2_counterexample :
    esData metersRoom1 none .hour dEx readingsSupplyAndRoom
        = [⟨0, 20, 50⟩]
      ∧ esData metersRoom1 (some "1") .hour dEx readingsSupplyAndRoom
        = [⟨0, 20, 0⟩]
      ∧ (50 : ℚ) ≠ 0 := by
  refine ⟨?_, ?_, by norm_num⟩ <;>
  · simp +decide [esData, esBuckets, occupiedKeys, groupKey, sortAsc,
      insertSorted, dedupBy, bucketMacs, esConsSum, esConsCase, esSupplySum,
      macDelta, firstReading, lastReading, esRoomOf, macsForRoom,
      normalizeLower, supplyMacEs, esRangeFilter, esOrdinal, Timestamp.key,
      dEx, tEx, metersRoom1, readingsSupplyAndRoom]
    norm_num [esClamp, round3, jsRound, max_def]

/-- C3, counterexample: the MySQL counter-delta SQL has no clamp — a counter
reset inside a bucket propagates a negative `consumption_energy_wh` (−60). -/
theorem c3_counterexample :
    (mysqlData [] none .hour dEx readingsReset).map MysqlRow.consumption
        = [(-60 : ℚ)]
      ∧ ¬ (0 : ℚ) ≤ -60 := by
  refine ⟨?_, by norm_num⟩
  simp +decide [mysqlData, occupiedKeys, filteredReadings, bucketReadings,
    dateFilter, groupKey, sortAsc, insertSorted, dedupBy, bucketMacs,
    mysqlConsOf, mysqlSupplyOf, consCase, macDelta, firstReading, lastReading,
    mysqlRoomOf, normalizeUpper, supplyMacMysql, Timestamp.key,
    readingsReset, dEx, tEx, bucketTs]
  norm_num

/-- C3, amended: the ES variant clamps each bucket's summed total (any
non-positive total becomes 0, so a lone resetting meter yields bucket
consumption 0), while the MySQL counter-delta variant propagates the
negative delta −60 unclamped into `consumption_energy_wh`. -/
theorem c3_clamp :
    (∀ q : ℚ, q ≤ 0 → esClamp q = 0)
      ∧ esData [] none .hour dEx readingsReset = [⟨0, 0, 0⟩]
      ∧ (mysqlData [] none .hour dEx readingsReset).map MysqlRow.consumption
        = [(-60 : ℚ)] := by
  refine ⟨fun q h => esClamp_nonpos h, ?_, ?_⟩
  · simp +decide [esData, esBuckets, occupiedKeys, groupKey, sortAsc,
      insertSorted, dedupBy, bucketMacs, esConsSum, esConsCase, esSupplySum,
      macDelta, firstReading, lastReading, esRoomOf, macsForRoom,
      normalizeLower, supplyMacEs, esRangeFilter, esOrdinal, Timestamp.key,
      dEx, tEx, readingsReset]
    norm_num [esClamp, round3, jsRound, max_def]
  · simp +decide [mysqlData, occupiedKeys, filteredReadings, bucketReadings,
      dateFilter, groupKey, sortAsc, insertSorted, dedupBy, bucketMacs,
      mysqlConsOf, mysqlSupplyOf, consCase, macDelta, firstReading,
      lastReading, mysqlRoomOf, normalizeUpper, supplyMacMysql, Timestamp.key,
      readingsReset, dEx, tEx, bucketTs]
    norm_num

/-- C3, witness for the amended theorem: the clamp at the concrete reset
total −60. -/
theorem c3_clamp_witness : esClamp (-60) = 0 :=
  c3_clamp.1 (-60) (by norm_num)

/-- C4, counterexample: a reading at exactly 01:00 falls in the hour-1
bucket, not the hour-0 bucket, so the claimed input (100 Wh at 00:00 and
160 Wh at 01:00) yields single-reading groups with delta 0 in both buckets —
consumption at ordinal 0 is 0, not 60. -/
theorem c4_counterexample :
    (mysqlData [] none .hour dEx readingsAcrossHours).map
        (fun r => (r.periodValue, r.consumption))
        = [(0, 0), (1, 0)]
      ∧ (esData [] none .hour dEx readingsAcrossHours).map
        (fun r => (r.ordinal, r.consumption))
        = [(0, 0), (1, 0)]
      ∧ (0 : ℚ) ≠ 60 := by
  refine ⟨?_, ?_, by norm_num⟩
  · simp +decide [mysqlData, occupiedKeys, filteredReadings, bucketReadings,
      dateFilter, groupKey, sortAsc, insertSorted, dedupBy, bucketMacs,
      mysqlConsOf, mysqlSupplyOf, consCase, macDelta, firstReading,
      lastReading, mysqlRoomOf, normalizeUpper, supplyMacMysql, Timestamp.key,
      readingsAcrossHours, dEx, tEx, bucketTs]
  · simp +decide [esData, esBuckets, occupiedKeys, groupKey, sortAsc,
      insertSorted, dedupBy, bucketMacs, esConsSum, esConsCase, esSupplySum,
      macDelta, firstReading, lastReading, esRoomOf, macsForRoom,
      normalizeLower, supplyMacEs, esRangeFilter, esOrdinal, Timestamp.key,
      dEx, tEx, readingsAcrossHours]
    norm_num [esClamp, round3, jsRound, max_def]

/-- C4, amended: with both readings inside the hour-0 bucket (100 Wh at
00:00 and 160 Wh at 00:30) both counter-delta variants report
last-minus-first = 60 Wh at ordinal 0; the other 23 hourly buckets are
absent from the output (not reported as zeros). -/
theorem c4_delta :
    (mysqlData [] none .hour dEx readingsInHour0).map
        (fun r => (r.periodValue, r.consumption, r.supply))
        = [(0, 60, 0)]
      ∧ esData [] none .hour dEx readingsInHour0 = [⟨0, 60, 0⟩] := by
  refine ⟨?_, ?_⟩
  · simp +decide [mysqlData, occupiedKeys, filteredReadings, bucketReadings,
      dateFilter, groupKey, sortAsc, insertSorted, dedupBy, bucketMacs,
      mysqlConsOf, mysqlSupplyOf, consCase, macDelta, firstReading,
      lastReading, mysqlRoomOf, normalizeUpper, supplyMacMysql, Timestamp.key,
      readingsInHour0, dEx, tEx, bucketTs]
    norm_num
  · simp +decide [esData, esBuckets, occupiedKeys, groupKey, sortAsc,
      insertSorted, dedupBy, bucketMacs, esConsSum, esConsCase, esSupplySum,
      macDelta, firstReading, lastReading, esRoomOf, macsForRoom,
      normalizeLower, supplyMacEs, esRangeFilter, esOrdinal, Timestamp.key,
      dEx, tEx, readingsInHour0]
    norm_num [esClamp, round3, jsRound, max_def]

/-- C6, counterexample: the power-average variant applies no gap guard and
no trapezoid — two readings 2 h apart (beyond the 60-minute max gap) still
contribute their power values to their buckets' averages (100 W and 140 W),
whereas the claim requires a 0-energy contribution for the gapped interval. -/
theorem c6_counterexample :
    (powerAvgData "hour" none [] dEx readingsGapped).map
        (fun r => (r.periodValue, r.consumption))
        = [(0, 100), (2, 140)]
      ∧ (140 : ℚ) ≠ 0 := by
  refine ⟨?_, by norm_num⟩
  simp +decide [powerAvgData, powerAvgFiltered, powerAvgDateFilter,
    powerAvgKey, sortAsc, insertSorted, dedupBy, supplyMacRaw,
    Timestamp.key, dEx, tEx, readingsGapped]
  norm_num [avgOrZero]

/-- C7, counterexample: for the unrecognized period `"fortnight"` the MySQL
counter-delta variant does fail, but the power-average variant silently
falls back to hourly grouping and produces a result. -/
theorem c7_counterexample :
    mysqlApiData "fortnight" [] none dEx [] = .error "Invalid period specified."
      ∧ powerAvgData "fortnight" none [] dEx [⟨"aa:bb", tEx 0 0, 0, 100⟩]
        = [⟨0, some 0, 100, 1⟩] := by
  refine ⟨by rfl, ?_⟩
  simp +decide [powerAvgData, powerAvgFiltered, powerAvgDateFilter,
    powerAvgKey, sortAsc, insertSorted, dedupBy, supplyMacRaw,
    Timestamp.key, dEx, tEx]
  norm_num [avgOrZero]

/-- C8, counterexample: a room filter matching no meter makes the ES variant
return the early empty `data: []` — 0 rows, not one zero-consumption row per
planned bucket (24 for the hour period). -/
theorem c8_counterexample :
    esData metersRoom1 (some "9") .hour dEx readingsSupplyAndRoom = []
      ∧ plannedBucketCount .hour dEx = 24
      ∧ ([] : List EsRow).length ≠ 24 := by
  refine ⟨by decide, by decide, by decide⟩

/-- C5, counterexample: when the single supply meter itself is mapped to the
filtered room, the CASE puts its delta into supply first — consumption is 0
while the sum of deltas of the meters mapped to the room is 50. -/
theorem c5_counterexample :
    (mysqlData metersSupplyInRoom1 (some "1") .hour dEx readingsSupplyOnly).map
        (fun r => (r.consumption, r.supply))
        = [(0, 50)]
      ∧ roomMappedSum metersSupplyInRoom1 "1"
          (bucketReadings .hour dEx readingsSupplyOnly 0) = 50
      ∧ (0 : ℚ) ≠ 50 := by
  refine ⟨?_, ?_, by norm_num⟩
  · simp +decide [mysqlData, occupiedKeys, filteredReadings, bucketReadings,
      dateFilter, groupKey, sortAsc, insertSorted, dedupBy, bucketMacs,
      mysqlConsOf, mysqlSupplyOf, consCase, macDelta, firstReading,
      lastReading, mysqlRoomOf, normalizeUpper, supplyMacMysql, Timestamp.key,
      readingsSupplyOnly, metersSupplyInRoom1, dEx, tEx, bucketTs]
  · simp +decide [roomMappedSum, bucketReadings, filteredReadings, dateFilter,
      groupKey, bucketMacs, dedupBy, mysqlRoomOf, normalizeUpper, macDelta,
      firstReading, lastReading, Timestamp.key, readingsSupplyOnly,
      metersSupplyInRoom1, dEx, tEx]

/-- C5, amended: with a room filter, a bucket's consumption total is the sum
of the per-meter deltas of exactly the non-supply meters whose directory
entry maps them to that room; other rooms' meters, unmapped meters, roomless
meters — and the supply meter — contribute 0. -/
theorem c5_room_exclusivity (meters : List Meter) (r : String)
    (rs : List Reading) :
    mysqlConsOf meters (some r) rs = nonSupplyRoomSum meters r rs := by
  unfold mysqlConsOf nonSupplyRoomSum
  rw [foldl_add_eq_sum, zero_add]
  congr 1
  apply List.map_congr_left
  intro mac _
  by_cases h1 : normalizeUpper mac = supplyMacMysql
  · simp [consCase, h1]
  · by_cases h2 : mysqlRoomOf meters mac = some r <;> simp [consCase, h1, h2]

/-- C9: the summary endpoint's quality percent is
`round(100 * valid / total)` and is defined as 0 when no interval was
observed, with no error in that case (the computation is total). -/
theorem c9_quality_percent (s : IntervalStats) :
    dataQualityPercent s
      = if s.total = 0 then 0
        else round ((100 * (s.valid : ℚ)) / (s.total : ℚ)) := by
  unfold dataQualityPercent
  rcases Nat.eq_zero_or_pos s.total with h | h
  · simp [h]
  · rw [if_pos h, if_neg (by omega)]
    have harg : (s.valid : ℚ) / (s.total : ℚ) * 100
        = 100 * (s.valid : ℚ) / (s.total : ℚ) := by ring
    rw [harg, round_eq]
    rfl

/-- C6, amended: the summary endpoint partitions the observed intervals into
valid ones (at most 3600 s, the 60-minute max gap) and large gaps, and the
2-hour pair is counted as 1 large gap and 0 valid intervals; there is no
trapezoidal integration — the power-average variant feeds both gapped
readings into its per-bucket power averages (see the counterexample). -/
theorem c6_intervals :
    (∀ readings : List Reading,
        (summaryStats readings).valid + (summaryStats readings).largeGaps
          = (summaryStats readings).total)
      ∧ summaryStats readingsGapped = ⟨1, 0, 1⟩ := by
  constructor
  · intro readings
    suffices h : ∀ l : List Nat,
        (l.filter (fun s => s ≤ 3600)).length
          + (l.filter (fun s => 3600 < s)).length = l.length by
      simpa [summaryStats] using h (intervalSeconds readings)
    intro l
    induction l with
    | nil => rfl
    | cons a t ih =>
        by_cases hc : a ≤ 3600
        · simp [List.filter_cons, hc, Nat.not_lt.mpr hc]
          omega
        · simp [List.filter_cons, hc, Nat.lt_of_not_le hc]
          omega
  · decide

/-- C2, amended: supply invariance holds in the MySQL counter-delta variant
(the room filter only alters the consumption CASE, never the supply CASE or
the row set), while the power-average variant reports `NULL` supply whenever
a room is set (and the ES variant drops the supply meter from the query, see
the counterexample). -/
theorem c2_supply_invariance :
    (∀ (meters : List Meter) (k : PeriodKind) (d : Date)
        (readings : List Reading) (r : String),
        (mysqlData meters (some r) k d readings).map
            (fun row => (row.periodValue, row.supply))
          = (mysqlData meters none k d readings).map
            (fun row => (row.periodValue, row.supply)))
      ∧ (∀ (p : String) (r : String) (meters : List Meter) (d : Date)
          (readings : List Reading) (row : AvgRow),
          row ∈ powerAvgData p (some r) meters d readings →
          row.supply = none) := by
  constructor
  · intro meters k d readings r
    simp only [mysqlData, List.map_map]
    rfl
  · intro p r meters d readings row hrow
    simp only [powerAvgData, List.mem_map] at hrow
    obtain ⟨v, _, rfl⟩ := hrow
    simp

/-- C2, witness for the amended theorem: both parts instantiated at concrete
inputs. -/
theorem c2_supply_invariance_witness :
    ((mysqlData metersRoom1 (some "1") .hour dEx readingsSupplyAndRoom).map
        (fun row => (row.periodValue, row.supply))
      = (mysqlData metersRoom1 none .hour dEx readingsSupplyAndRoom).map
        (fun row => (row.periodValue, row.supply)))
      ∧ (⟨0, none, (100 : ℚ), 1⟩ : AvgRow).supply = none := by
  refine ⟨c2_supply_invariance.1 metersRoom1 .hour dEx readingsSupplyAndRoom "1",
    c2_supply_invariance.2 "hour" "1" metersRoom1 dEx
      [⟨"aa:bb", tEx 0 0, 0, 100⟩] ⟨0, none, 100, 1⟩ ?_⟩
  have h : powerAvgData "hour" (some "1") metersRoom1 dEx
      [⟨"aa:bb", tEx 0 0, 0, 100⟩] = [⟨0, none, 100, 1⟩] := by
    simp +decide [powerAvgData, powerAvgFiltered, powerAvgDateFilter,
      powerAvgKey, sortAsc, insertSorted, dedupBy, supplyMacRaw,
      Timestamp.key, dEx, tEx, metersRoom1]
    norm_num [avgOrZero]
  rw [h]
  exact List.mem_singleton_self _

/-- C7, amended: only the MySQL counter-delta variant rejects an
unrecognized period (with the 400 `"Invalid period specified."`); the
power-average variant recognizes the extra `week` period and for any other
unknown period silently groups by hour instead of failing. -/
theorem c7_period_validation (p : String) (meters : List Meter)
    (room : Option String) (d : Date) (readings : List Reading)
    (h : parsePeriod p = none) :
    mysqlApiData p meters room d readings = .error "Invalid period specified."
      ∧ (p ≠ "week" → ∀ t, powerAvgKey p t = t.hour) := by
  have hd : p ≠ "day" := by intro hp; subst hp; simp [parsePeriod] at h
  have hm : p ≠ "month" := by intro hp; subst hp; simp [parsePeriod] at h
  constructor
  · unfold mysqlApiData
    rw [h]
  · intro hw t
    simp [powerAvgKey, hd, hw, hm]

/-- C7, witness for the amended theorem at the period `"fortnight"`. -/
theorem c7_period_validation_witness :
    mysqlApiData "fortnight" [] none dEx [] = .error "Invalid period specified."
      ∧ powerAvgKey "fortnight" ⟨2025, 6, 4, 7, 0⟩ = 7 := by
  have h := c7_period_validation "fortnight" [] none dEx [] (by rfl)
  exact ⟨h.1, h.2 (by decide) ⟨2025, 6, 4, 7, 0⟩⟩

/-- C8, amended: a room filter matching no meter never fails — the ES
variant returns the early empty result (`data: []`, not one zero row per
planned bucket), and the MySQL counter-delta variant runs the query with
every bucket's consumption summing to 0 (supply unaffected). -/
theorem c8_unmatched_room :
    (∀ (meters : List Meter) (r : String) (k : PeriodKind) (d : Date)
        (readings : List Reading),
        macsForRoom meters r = [] →
        esData meters (some r) k d readings = [])
      ∧ (∀ (meters : List Meter) (r : String) (k : PeriodKind) (d : Date)
          (readings : List Reading) (row : MysqlRow),
          (∀ m ∈ meters, m.room ≠ some r) →
          row ∈ mysqlData meters (some r) k d readings →
          row.consumption = 0) := by
  constructor
  · intro meters r k d readings h
    simp [esData, h]
  · intro meters r k d readings row hm hrow
    simp only [mysqlData, List.mem_map] at hrow
    obtain ⟨v, _, rfl⟩ := hrow
    show mysqlConsOf meters (some r) (bucketReadings k d readings v) = 0
    unfold mysqlConsOf
    rw [foldl_add_eq_sum, zero_add]
    apply List.sum_eq_zero
    intro x hx
    rw [List.mem_map] at hx
    obtain ⟨mac, _, rfl⟩ := hx
    have hro : mysqlRoomOf meters mac ≠ some r := by
      unfold mysqlRoomOf
      cases hfind : meters.find?
          (fun m => normalizeUpper m.mac == normalizeUpper mac) with
      | none => simp
      | some m => exact hm m (List.mem_of_find?_eq_some hfind)
    simp [consCase, hro]

/-- C8, witness for the amended theorem: the concrete unmatched room "9". -/
theorem c8_unmatched_room_witness :
    esData metersRoom1 (some "9") .hour dEx readingsReset = []
      ∧ (⟨0, ⟨2025, 6, 4, 0, 0⟩, (0 : ℚ), (0 : ℚ)⟩ : MysqlRow).consumption
        = 0 := by
  constructor
  · exact c8_unmatched_room.1 metersRoom1 "9" .hour dEx readingsReset
      (by decide)
  · refine c8_unmatched_room.2 metersRoom1 "9" .hour dEx readingsReset _
      (by decide) ?_
    have h : mysqlData metersRoom1 (some "9") .hour dEx readingsReset
        = [⟨0, ⟨2025, 6, 4, 0, 0⟩, 0, 0⟩] := by
      simp +decide [mysqlData, occupiedKeys, filteredReadings, bucketReadings,
        dateFilter, groupKey, sortAsc, insertSorted, dedupBy, bucketMacs,
        mysqlConsOf, mysqlSupplyOf, consCase, macDelta, firstReading,
        lastReading, mysqlRoomOf, normalizeUpper, supplyMacMysql,
        Timestamp.key, readingsReset, metersRoom1, dEx, tEx, bucketTs]
    rw [h]
    exact List.mem_singleton_self _

/-- C10: every ES output value is clamped non-negative and is a 3-decimal
value (an integer number of thousandths), and the clamp is applied to each
bucket's summed total, not per meter: in a bucket holding a +100 Wh meter
and a −60 Wh resetting meter, the output is 40, the reset silently
cancelling against the other meter before the clamp. -/
theorem c10_clamped_output :
    (∀ (meters : List Meter) (room : Option String) (k : PeriodKind)
        (d : Date) (readings : List Reading) (row : EsRow),
        row ∈ esData meters room k d readings →
          0 ≤ row.consumption ∧ 0 ≤ row.supply
            ∧ (∃ n : ℤ, row.consumption = (n : ℚ) / 1000)
            ∧ (∃ n : ℤ, row.supply = (n : ℚ) / 1000))
      ∧ macDelta readingsCancelling "aa:bb" = 100
      ∧ macDelta readingsCancelling "cc:dd" = -60
      ∧ esData [] none .hour dEx readingsCancelling = [⟨0, 40, 0⟩] := by
  refine ⟨?_, ?_, ?_, ?_⟩
  · intro meters room k d readings row hrow
    have hb : ∀ (ms : List Meter) (ro : Option String) (rs : List Reading),
        row ∈ esBuckets ms ro k rs →
          0 ≤ row.consumption ∧ 0 ≤ row.supply
            ∧ (∃ n : ℤ, row.consumption = (n : ℚ) / 1000)
            ∧ (∃ n : ℤ, row.supply = (n : ℚ) / 1000) := by
      intro ms ro rs h
      simp only [esBuckets, List.mem_map] at h
      obtain ⟨v, _, rfl⟩ := h
      exact ⟨esClamp_nonneg _, esClamp_nonneg _, esClamp_thousandth _,
        esClamp_thousandth _⟩
    rcases room with _ | r
    · exact hb meters none _ (by simpa [esData] using hrow)
    · by_cases he : (macsForRoom meters r).isEmpty
      · simp [esData, he] at hrow
      · exact hb meters (some r) _ (by simpa [esData, he] using hrow)
  · simp +decide [macDelta, firstReading, lastReading, readingsCancelling,
      Timestamp.key, tEx]
  · simp +decide [macDelta, firstReading, lastReading, readingsCancelling,
      Timestamp.key, tEx]
    norm_num
  · simp +decide [esData, esBuckets, occupiedKeys, groupKey, sortAsc,
      insertSorted, dedupBy, bucketMacs, esConsSum, esConsCase, esSupplySum,
      macDelta, firstReading, lastReading, esRoomOf, macsForRoom,
      normalizeLower, supplyMacEs, esRangeFilter, esOrdinal, Timestamp.key,
      dEx, tEx, readingsCancelling]
    norm_num [esClamp, round3, jsRound, max_def]

/-- C10, witness: the universal part applied to the concrete cancelling
bucket's output row. -/
theorem c10_clamped_output_witness :
    0 ≤ (40 : ℚ) ∧ 0 ≤ (0 : ℚ)
      ∧ (∃ n : ℤ, (40 : ℚ) = (n : ℚ) / 1000)
      ∧ (∃ n : ℤ, (0 : ℚ) = (n : ℚ) / 1000) :=
  c10_clamped_output.1 [] none .hour dEx readingsCancelling ⟨0, 40, 0⟩
    (by rw [c10_clamped_output.2.2.2]; exact List.mem_singleton_self _)

/-- Every client-generated fill row carries zero consumption and supply. -/
theorem generateAllPeriods_zero (s : String) (d : Date) :
    ∀ g ∈ generateAllPeriods s d, g.consumption = 0 ∧ g.supply = 0 := by
  intro g hg
  unfold generateAllPeriods at hg
  split_ifs at hg
  · rw [List.mem_map] at hg; obtain ⟨i, _, rfl⟩ := hg; exact ⟨rfl, rfl⟩
  · rw [List.mem_map] at hg; obtain ⟨i, _, rfl⟩ := hg; exact ⟨rfl, rfl⟩
  · rw [List.mem_map] at hg; obtain ⟨i, _, rfl⟩ := hg; exact ⟨rfl, rfl⟩
  · cases hg

/-- The client fill emits one row per generated bucket; each row is either a
server row (matched by label) or a zero fill row. -/
theorem filledData_spec (s : String)
    (hs : s = "day" ∨ s = "month" ∨ s = "year") (d : Date)
    (mapped : List ClientRow) :
    (filledData s d mapped).length = (generateAllPeriods s d).length
      ∧ ∀ row ∈ filledData s d mapped,
          row ∈ mapped ∨ (row.consumption = 0 ∧ row.supply = 0) := by
  unfold filledData
  rw [if_pos hs]
  refine ⟨List.length_map _ _, ?_⟩
  intro row hrow
  rw [List.mem_map] at hrow
  obtain ⟨g, hg, rfl⟩ := hrow
  cases hfind : mapped.find? (fun r => r.label == g.label) with
  | some found =>
      left
      simpa [hfind] using List.mem_of_find?_eq_some hfind
  | none =>
      right
      simpa [hfind] using generateAllPeriods_zero s d g hg

/-- The client's generated bucket count matches the planned count for the
non-hour periods. -/
theorem generateAllPeriods_length (k : PeriodKind) (hk : k ≠ .hour)
    (d : Date) :
    (generateAllPeriods (periodString k) d).length = plannedBucketCount k d := by
  cases k with
  | hour => exact absurd rfl hk
  | day => simp [generateAllPeriods, periodString, plannedBucketCount]
  | month => simp [generateAllPeriods, periodString, plannedBucketCount]
  | year => simp [generateAllPeriods, periodString, plannedBucketCount]

/-- Each period kind's query string parses back to itself. -/
theorem parsePeriod_periodString (k : PeriodKind) :
    parsePeriod (periodString k) = some k := by
  cases k <;> rfl

/-- C1, amended: only for the day, month and year periods, and only when the
server returns at least one row, does the composed pipeline emit exactly one
bucket per planned bucket (days-in-month, 12, or years from 2023), each
either a server row or a zero fill; for `hour` the output has exactly the
occupied buckets (see the counterexample), and an empty server result makes
the client show an error state instead of zero-filled buckets. -/
theorem c1_bucket_fill (k : PeriodKind) (meters : List Meter)
    (room : Option String) (d : Date) (readings : List Reading)
    (hk : k ≠ .hour)
    (hne : mysqlData meters room k d readings ≠ []) :
    ∃ l, fullPipeline (periodString k) meters room d readings = some l
      ∧ l.length = plannedBucketCount k d
      ∧ ∀ row ∈ l,
          row ∈ (mysqlData meters room k d readings).map
              (toClientRow (periodString k))
            ∨ (row.consumption = 0 ∧ row.supply = 0) := by
  have hs : periodString k = "day" ∨ periodString k = "month"
      ∨ periodString k = "year" := by
    cases k
    · exact absurd rfl hk
    · exact Or.inl rfl
    · exact Or.inr (Or.inl rfl)
    · exact Or.inr (Or.inr rfl)
  have hne2 : ¬ ((mysqlData meters room k d readings).map
      (toClientRow (periodString k))).isEmpty = true := by
    simpa [List.isEmpty_iff, List.map_eq_nil_iff] using hne
  refine ⟨filledData (periodString k) d
    ((mysqlData meters room k d readings).map (toClientRow (periodString k))),
    ?_, ?_, ?_⟩
  · unfold fullPipeline
    rw [parsePeriod_periodString k]
    exact if_neg hne2
  · exact (filledData_spec _ hs d _).1.trans (generateAllPeriods_length k hk d)
  · exact (filledData_spec _ hs d _).2

/-- C1, witness for the amended theorem: the month period over one reading
yields exactly 12 buckets. -/
theorem c1_bucket_fill_witness :
    (fullPipeline (periodString .month) [] none dEx
        [⟨"aa:bb", tEx 5 0, 100, 0⟩]).map List.length = some 12 := by
  obtain ⟨l, h1, h2, _⟩ :=
    c1_bucket_fill .month [] none dEx [⟨"aa:bb", tEx 5 0, 100, 0⟩]
      (by decide) (by decide)
  rw [h1, Option.map_some', h2]
  rfl
